import Mathlib

/-!
Verification development for the EcoSystem authorization and
secure-credential subsystem: a shallow embedding of the Go sources
(database credential store, bootstrap credential rotation, session-token
issuing and verification, and the magic-code login flow), with theorems
checking the specification's claims against it.
-/

namespace Ecosystem

/-! ## Credential Store (dbConfig, from the `ghost` database file) -/

/-- dbConfig holds all the necessary information for a database connection,
mirroring the Go struct field for field. -/
structure dbConfig where
  user : String
  pw : String
  server : String
  port : String
  dbName : String
  disableSSL : Bool
deriving DecidableEq, Repr

/-- buildConnString renders a dbConfig as a Postgres connection URI exactly
as the body of getDBConnectionString does after the server-role password
override: the password segment is empty when the pw field is empty, and the
sslmode suffix is appended when disableSSL is set. -/
def buildConnString (d : dbConfig) : String :=
  let pwString := if d.pw ≠ "" then ":" ++ d.pw else ""
  let s := "postgres://" ++ d.user ++ pwString ++ "@" ++ d.server ++ ":" ++ d.port ++ "/" ++ d.dbName
  if d.disableSSL then s ++ "?sslmode=disable" else s

/-- getDBConnectionString returns a correctly formatted Postgres connection
string from the config struct; if this is a connection for a server role,
the password supplied as a parameter is used, otherwise that parameter is
ignored (the receiver is a value, so the override is local). -/
def getDBConnectionString (d : dbConfig) (serverPW : String) : String :=
  buildConnString (if d.user = "server" then { d with pw := serverPW } else d)

/-- SetupConnection populates a dbConfig from process-wide configuration:
user defaults to the constrained server role; for the super user the name
and password come from configuration. -/
structure AppPgConfig where
  pgServer : String
  pgPort : String
  pgDBName : String
  pgDisableSSL : Bool
  pgSuperUser : String
  pgpw : String
deriving DecidableEq, Repr

def SetupConnection (isSuperUser : Bool) (cfg : AppPgConfig) : dbConfig :=
  let d : dbConfig :=
    { user := "server", pw := "", server := cfg.pgServer, port := cfg.pgPort,
      dbName := cfg.pgDBName, disableSSL := cfg.pgDisableSSL }
  if isSuperUser then { d with user := cfg.pgSuperUser, pw := cfg.pgpw } else d

/-- connectToDB_logs lists the log lines emitted by connectToDB: it always
logs the full connection string before dialling, and again on a successful
ping; on a failed ping it exits fatally with a message that does not repeat
the string. -/
def connectToDB_logs (dbConnectionString : String) (pingOk : Bool) : List String :=
  if pingOk then
    ["Connecting to " ++ dbConnectionString, "Connected to " ++ dbConnectionString]
  else
    ["Connecting to " ++ dbConnectionString]

/-- ReturnDBConnection_logs gives the log lines produced by
ReturnDBConnection, which builds the connection string (threading the
optional server password) and hands it to connectToDB. -/
def ReturnDBConnection_logs (d : dbConfig) (serverPW : String) (pingOk : Bool) : List String :=
  connectToDB_logs (getDBConnectionString d serverPW) pingOk

/-! ## Session Issuer (auth.go GetUserToken) and token verification -/

/-- Alg is the JWT signing algorithm carried in a token header. -/
inductive Alg where
  | HS256
  | HS512
  | RS256
deriving DecidableEq, Repr

/-- Claims is the claim set of a session token. GetUserToken fills only the
userID claim; the expiry claim is optional because the issuer in the source
leaves it unset (its TODO comment). -/
structure Claims where
  userID : String
  exp : Option Nat
deriving DecidableEq, Repr

/-- encodeClaims serialises a claim set to the signed payload. -/
def encodeClaims (c : Claims) : String :=
  c.userID ++ "|" ++ (match c.exp with | some e => toString e | none => "")

/-- macSign models the keyed message-authentication signature (HMAC in the
source): a deterministic function of algorithm, secret and payload. The
cryptographic internals are irrelevant to the claims; only determinism and
dependence on all three inputs matter. -/
def macSign (a : Alg) (secret payload : String) : String :=
  (match a with
    | Alg.HS256 => "HS256"
    | Alg.HS512 => "HS512"
    | Alg.RS256 => "RS256") ++ "." ++ secret ++ "." ++ payload

/-- Token is a signed session token: header algorithm, claim set, signature. -/
structure Token where
  alg : Alg
  claims : Claims
  sig : String
deriving DecidableEq, Repr

/-- GetUserToken returns a token encoded with a user id, signed with HS256
and the process-wide secret. The source sets only the userID claim (expiry
is an unfinished TODO), and HMAC signing cannot fail, so the Go error result
is always nil and is omitted here. -/
def GetUserToken (secret userID : String) : Token :=
  let c : Claims := { userID := userID, exp := none }
  { alg := Alg.HS256, claims := c, sig := macSign Alg.HS256 secret (encodeClaims c) }

/-- TokenErr is the verification error taxonomy. -/
inductive TokenErr where
  | malformed
  | signatureInvalid
  | algorithmMismatch
  | expired
deriving DecidableEq, Repr

/-- Modelled from the spec: verifyToken is the verification performed by the
JWT middleware configured in serveAPI (validation key = the configured
signing secret, SigningMethod = HS256); the middleware library itself is not
in src. Per the spec it rejects tokens signed with any other algorithm with
an algorithm mismatch, tokens whose signature does not verify against the
current secret, and tokens whose expiry claim, when present, has elapsed. -/
def verifyToken (secret : String) (now : Nat) (t : Token) : Except TokenErr Claims :=
  if t.alg ≠ Alg.HS256 then Except.error TokenErr.algorithmMismatch
  else if t.sig ≠ macSign Alg.HS256 secret (encodeClaims t.claims) then
    Except.error TokenErr.signatureInvalid
  else
    match t.claims.exp with
    | some e => if e ≤ now then Except.error TokenErr.expired else Except.ok t.claims
    | none => Except.ok t.claims

/-! ## TTL cache and the magic-code login flow (auth.go) -/

/-- Modelled from the spec: the ttlcache dependency is not in src. A Cache
holds a configured TTL and entries of key, value and absolute expiry
timestamp; set overwrites any existing entry for the key, get returns
not-found once the expiry has passed even if the entry was never removed. -/
structure Cache where
  ttl : Nat
  entries : List (String × String × Nat)
deriving DecidableEq, Repr

/-- Cache.set stores a value with expiry now plus the configured TTL,
overwriting any existing entry for that key. -/
def Cache.set (c : Cache) (now : Nat) (k v : String) : Cache :=
  { c with entries := (k, v, now + c.ttl) :: c.entries.filter (fun e => e.1 ≠ k) }

/-- Cache.get returns the live value for a key, or none when the key is
absent or its expiry has passed. -/
def Cache.get (c : Cache) (now : Nat) (k : String) : Option String :=
  match c.entries.find? (fun e => e.1 = k) with
  | some e => if now < e.2.2 then some e.2.1 else none
  | none => none

/-- initCache builds a fresh cache with the given expiry in seconds. -/
def initCache (exp : Nat) : Cache :=
  { ttl := exp, entries := [] }

/-- MagicCodeCache is the cache for storing email and temporary password
combinations for passwordless authorisation, with a five-minute expiry. -/
def MagicCodeCache : Cache := initCache 300

/-- Modelled from the spec: RandomString (a core utility not in src)
returns a sufficiently unpredictable random string of exactly the requested
length. Randomness is modelled by an explicit seed driving a linear
congruential generator over a 36-character alphanumeric alphabet. -/
def alphanumChars : List Char :=
  ['a', 'b', 'c', 'd', 'e', 'f', 'g', 'h', 'i', 'j', 'k', 'l', 'm',
   'n', 'o', 'p', 'q', 'r', 's', 't', 'u', 'v', 'w', 'x', 'y', 'z',
   '0', '1', '2', '3', '4', '5', '6', '7', '8', '9']

def lcgNext (s : Nat) : Nat :=
  (s * 1103515245 + 12345) % 2147483648

def randomChars : Nat → Nat → List Char
  | 0, _ => []
  | n + 1, s => alphanumChars.getD (s % 36) 'a' :: randomChars n (lcgNext s)

def RandomString (n : Nat) (seed : Nat) : String :=
  String.mk (randomChars n seed)

/-- MailServerState captures the outcome-relevant state of the external
mail capability: whether it is configured and working, the configured
sender name, and whether a send attempt would fail. -/
structure MailServerState where
  working : Bool
  fromName : String
  sendFails : Bool
deriving DecidableEq, Repr

/-- AuthErr is the error taxonomy of the magic-code request flow, one
constructor per distinct error return in RequestMagicCode. -/
inductive AuthErr where
  | mailNotConfigured
  | userNotFound
  | mailDeliveryFailed
deriving DecidableEq, Repr

/-- AuthState is the process state the magic-code flow reads and writes:
the mail capability, the users table rows of email and id, the magic-code
cache, and the list of attempted outgoing emails as recipient, subject,
one-time password and template name. -/
structure AuthState where
  mailServer : MailServerState
  users : List (String × String)
  cache : Cache
  sent : List (String × String × String × String)
deriving DecidableEq, Repr

/-- findUserByEmail looks an email up in the users table, returning its id. -/
def findUserByEmail (users : List (String × String)) (email : String) : Option String :=
  (users.find? (fun u => u.1 = email)).map (fun u => u.2)

/-- RequestMagicCode generates a magic code, stores it in the cache against
the user's email and sends it to them by email; it mirrors the source: fail
immediately when system email is not configured, fail when the email is not
in the user database, otherwise create a six-character one-off password,
set it in the cache, attempt the email send, and return that send's result. -/
def RequestMagicCode (st : AuthState) (now seed : Nat) (email templateName : String) :
    Except AuthErr Unit × AuthState :=
  if st.mailServer.working = false then
    (Except.error AuthErr.mailNotConfigured, st)
  else
    match findUserByEmail st.users email with
    | none => (Except.error AuthErr.userNotFound, st)
    | some _ =>
      let pw := RandomString 6 seed
      let st' : AuthState :=
        { st with
          cache := st.cache.set now email pw,
          sent := st.sent ++
            [(email, "Your Magic Code from " ++ st.mailServer.fromName, pw, templateName)] }
      if st.mailServer.sendFails then
        (Except.error AuthErr.mailDeliveryFailed, st')
      else
        (Except.ok (), st')

/-! ## Bootstrap Rotator and startup sequence (serve / preServe) -/

/-- ServeConfig collects the configuration and environment outcomes the
startup path reads: the signing secret, whether email setup succeeds,
whether the admin-connection ping, the password-setting statement, and the
server-connection ping succeed, the seed driving the random rotation
secret, the listener-disabling flags, and the three listener ports. -/
structure ServeConfig where
  secret : String
  emailOk : Bool
  adminPingOk : Bool
  setPwSucceeds : Bool
  serverPingOk : Bool
  seed : Nat
  noadminpanel : Bool
  nowebsite : Bool
  adminPanelPort : String
  websitePort : String
  apiPort : String
deriving DecidableEq, Repr

/-- Event is an observable step of the startup path: the non-fatal email
setup, opening and closing the administrative connection, executing the
statement that sets the server role's password, opening the long-lived
server-identity connection, starting a listener on a port, and a fatal
log-and-exit (after which nothing further happens). -/
inductive Event where
  | emailSetup (ok : Bool)
  | openAdminConn
  | setServerPassword (pw : String)
  | closeAdminConn
  | openServerConn (pw : String)
  | listen (port : String)
  | fatal (msg : String)
deriving DecidableEq, Repr

/-- Event.isListen recognises listener-start events. -/
def Event.isListen : Event → Bool
  | Event.listen _ => true
  | _ => false

/-- preServeTrace is the ordered event trace of preServe: check that a
signing secret was provided (fatal exit otherwise), set up email
(non-fatal), open a temporary super-user connection (connectToDB exits
fatally when its ping fails), generate a random 16-character server
password and set it with a privileged statement (fatal on error), close
the temporary connection, then open the permanent server connection with
that same password (again fatal when its ping fails). -/
def preServeTrace (cfg : ServeConfig) : List Event :=
  if cfg.secret = "" then [Event.fatal "No signing secret provided"]
  else
    Event.emailSetup cfg.emailOk ::
    Event.openAdminConn ::
    if cfg.adminPingOk = false then
      [Event.fatal "Error connecting to Postgres as super user during setup."]
    else
      Event.setServerPassword (RandomString 16 cfg.seed) ::
      if cfg.setPwSucceeds = false then
        [Event.fatal "Error setting server role password"]
      else
        Event.closeAdminConn ::
        Event.openServerConn (RandomString 16 cfg.seed) ::
        if cfg.serverPingOk = false then
          [Event.fatal "Error connecting to Postgres as super user during setup."]
        else []

/-- preServeFatal tells whether the startup path exits before serving: any
fatal condition on the preServe path stops the process, so the listeners
in serve are never reached. -/
def preServeFatal (cfg : ServeConfig) : Bool :=
  decide (cfg.secret = "") || !cfg.adminPingOk || !cfg.setPwSucceeds || !cfg.serverPingOk

/-- serveTrace is the ordered event trace of serve: preServe runs first and
synchronously; only if it completed without a fatal exit do the admin
panel, website and API listeners start, in that order, subject to the
disabling flags (the API listener always starts). -/
def serveTrace (cfg : ServeConfig) : List Event :=
  preServeTrace cfg ++
  if preServeFatal cfg then []
  else
    (if cfg.noadminpanel = false then [Event.listen cfg.adminPanelPort] else []) ++
    (if cfg.nowebsite = false then [Event.listen cfg.websitePort] else []) ++
    [Event.listen cfg.apiPort]

/-! ## Shared helper lemmas and example values -/

theorem randomChars_length (n : Nat) : ∀ s : Nat, (randomChars n s).length = n := by
  induction n with
  | zero => intro s; rfl
  | succ n ih => intro s; simp [randomChars, ih]

theorem RandomString_length (n s : Nat) : (RandomString n s).length = n := by
  simp [RandomString, String.length, randomChars_length]

/-- serverRoleConfigExample is a concrete constrained-server credential
descriptor as SetupConnection produces for the non-super-user case. -/
def serverRoleConfigExample : dbConfig :=
  { user := "server", pw := "", server := "localhost", port := "5432",
    dbName := "ecosystem", disableSSL := false }

/-- superUserConfigExample is a concrete administrative credential
descriptor. -/
def superUserConfigExample : dbConfig :=
  { user := "postgres", pw := "adminpw", server := "localhost", port := "5432",
    dbName := "ecosystem", disableSSL := false }

/-! ## Claim theorems -/

/-- C1: the claim states the rotation secret never appears in any log
output. The code refutes it: connectToDB logs the full connection string,
and for the constrained server identity that string embeds the supplied
rotation secret as the password. At the concrete 16-character secret
abcdef0123456789, the first log line of ReturnDBConnection contains the
secret as a substring. -/
theorem rotation_secret_logged :
    ∃ pre post,
      pre ++ "abcdef0123456789" ++ post ∈
        ReturnDBConnection_logs serverRoleConfigExample "abcdef0123456789" true := by
  refine ⟨"Connecting to postgres://server:", "@localhost:5432/ecosystem", ?_⟩
  decide

/-- C7: getDBConnectionString uses the supplied secret as the password
exactly when the descriptor's identity is the constrained server identity,
ignoring any stored secret field; for any other identity the supplied
secret parameter is ignored and the stored secret is used. -/
theorem getDBConnectionString_secret_selection (d : dbConfig) (s x y : String) :
    (d.user = "server" →
      getDBConnectionString d s = buildConnString { d with pw := s } ∧
      getDBConnectionString d s = getDBConnectionString { d with pw := x } s) ∧
    (d.user ≠ "server" →
      getDBConnectionString d s = buildConnString d ∧
      getDBConnectionString d s = getDBConnectionString d y) := by
  constructor
  · intro h
    constructor <;> simp [getDBConnectionString, h]
  · intro h
    constructor <;> simp [getDBConnectionString, h]

/-- Witness for C7: at concrete descriptors, the server identity's
connection string takes the supplied password (the stale stored one is
ignored), and the administrative identity's string keeps its stored
password whatever is supplied. -/
theorem getDBConnectionString_secret_selection_witness :
    (getDBConnectionString { serverRoleConfigExample with pw := "stale" } "fresh" =
       buildConnString { serverRoleConfigExample with pw := "fresh" } ∧
     getDBConnectionString { serverRoleConfigExample with pw := "stale" } "fresh" =
       getDBConnectionString { serverRoleConfigExample with pw := "other" } "fresh") ∧
    (getDBConnectionString superUserConfigExample "fresh" =
       buildConnString superUserConfigExample ∧
     getDBConnectionString superUserConfigExample "fresh" =
       getDBConnectionString superUserConfigExample "ignored") :=
  ⟨(getDBConnectionString_secret_selection
      { serverRoleConfigExample with pw := "stale" } "fresh" "other" "ignored").1 rfl,
   (getDBConnectionString_secret_selection
      superUserConfigExample "fresh" "other" "ignored").2 (by decide)⟩

/-- C2: for a fixed non-empty signing secret, verifying the token produced
by GetUserToken succeeds with no error and yields the same user identifier
(the token carries no expiry claim, so no expiry check intervenes). -/
theorem verify_issue_roundtrip (secret userID : String) (now : Nat)
    (_hs : secret ≠ "") :
    verifyToken secret now (GetUserToken secret userID) =
      Except.ok { userID := userID, exp := none } := by
  simp [verifyToken, GetUserToken]

/-- Witness for C2 at a concrete secret and user identifier. -/
theorem verify_issue_roundtrip_witness :
    verifyToken "topsecret" 0 (GetUserToken "topsecret" "alice") =
      Except.ok { userID := "alice", exp := none } :=
  verify_issue_roundtrip "topsecret" "alice" 0 (by decide)

/-- C3: any token whose header algorithm differs from the single accepted
HS256 is rejected with an algorithm mismatch, regardless of its payload
and signature. -/
theorem verify_rejects_other_algorithms (secret : String) (now : Nat) (t : Token)
    (h : t.alg ≠ Alg.HS256) :
    verifyToken secret now t = Except.error TokenErr.algorithmMismatch := by
  simp [verifyToken, h]

/-- hs512TokenExample is a structurally valid token correctly signed under
HS512 with the right secret, differing from an accepted token only in its
algorithm. -/
def hs512TokenExample : Token :=
  let c : Claims := { userID := "alice", exp := none }
  { alg := Alg.HS512, claims := c, sig := macSign Alg.HS512 "topsecret" (encodeClaims c) }

/-- Witness for C3: the otherwise-valid HS512 token is rejected with an
algorithm mismatch. -/
theorem verify_rejects_other_algorithms_witness :
    verifyToken "topsecret" 0 hs512TokenExample =
      Except.error TokenErr.algorithmMismatch :=
  verify_rejects_other_algorithms "topsecret" 0 hs512TokenExample (by decide)

/-- Counterexample to C6: a token produced by the issuing operation carries
no expiry metadata at all — GetUserToken sets only the userID claim, so the
expiry claim of a freshly issued token is none, contradicting the claim
that every produced token encodes issued/expiry metadata. -/
theorem issued_token_lacks_expiry_metadata :
    (GetUserToken "topsecret" "alice").claims.exp = none :=
  rfl

/-- C6 amended: tokens produced by GetUserToken encode only the user
identifier and no expiry metadata (left as a TODO in the source); a token
that does carry an expiry claim, with matching algorithm and valid
signature, is rejected with an Expired error once the expiry has elapsed. -/
theorem token_expiry_enforcement (secret userID : String) (t : Token) (now e : Nat)
    (halg : t.alg = Alg.HS256)
    (hsig : t.sig = macSign Alg.HS256 secret (encodeClaims t.claims))
    (hexp : t.claims.exp = some e) (he : e ≤ now) :
    (GetUserToken secret userID).claims.exp = none ∧
    verifyToken secret now t = Except.error TokenErr.expired := by
  refine ⟨rfl, ?_⟩
  simp [verifyToken, halg, hsig, hexp, he]

/-- expiredTokenExample is a validly signed HS256 token whose expiry claim
is 10. -/
def expiredTokenExample : Token :=
  let c : Claims := { userID := "bob", exp := some 10 }
  { alg := Alg.HS256, claims := c, sig := macSign Alg.HS256 "topsecret" (encodeClaims c) }

/-- Witness for the amended C6 at time 11, past the expiry 10. -/
theorem token_expiry_enforcement_witness :
    (GetUserToken "topsecret" "bob").claims.exp = none ∧
    verifyToken "topsecret" 11 expiredTokenExample =
      Except.error TokenErr.expired :=
  token_expiry_enforcement "topsecret" "bob" expiredTokenExample 11 10 rfl rfl rfl
    (by decide)

/-- filter_key_after_erase: removing every entry for a key and then keeping
only that key's entries leaves nothing. -/
theorem filter_key_after_erase (k : String) (l : List (String × String × Nat)) :
    (l.filter (fun e => e.1 ≠ k)).filter (fun e => e.1 = k) = [] := by
  induction l with
  | nil => rfl
  | cons a l ih =>
    by_cases h : a.1 = k <;> simp [List.filter_cons, h, ih]

/-- RequestMagicCode_state (helper): when mail works and the user is found,
the state RequestMagicCode returns is the same whether or not the send
fails — the code is cached and the send attempted before the send result
is examined. -/
theorem RequestMagicCode_state (st : AuthState) (now seed : Nat)
    (email templateName uid : String)
    (hw : st.mailServer.working = true)
    (hu : findUserByEmail st.users email = some uid) :
    (RequestMagicCode st now seed email templateName).2 =
      { st with
        cache := st.cache.set now email (RandomString 6 seed),
        sent := st.sent ++
          [(email, "Your Magic Code from " ++ st.mailServer.fromName,
            RandomString 6 seed, templateName)] } := by
  unfold RequestMagicCode
  rw [if_neg (by simp [hw]), hu]
  cases hsf : st.mailServer.sendFails <;> simp [hsf]

/-- C8: for a contact address found in the user store (with mail working
and the cache at its configured 300-second TTL), requesting a magic code
generates a code of exactly 6 characters, stores it keyed by the address
with expiry now + 300, the code is immediately readable, and exactly one
entry for that address remains, whatever was stored before. -/
theorem requestMagicCode_stores_code (st : AuthState) (now seed : Nat)
    (email templateName uid : String)
    (hw : st.mailServer.working = true)
    (hu : findUserByEmail st.users email = some uid)
    (httl : st.cache.ttl = 300) :
    (RandomString 6 seed).length = 6 ∧
    ((RequestMagicCode st now seed email templateName).2).cache.get now email =
      some (RandomString 6 seed) ∧
    (email, RandomString 6 seed, now + 300) ∈
      ((RequestMagicCode st now seed email templateName).2).cache.entries ∧
    (((RequestMagicCode st now seed email templateName).2).cache.entries.filter
      (fun e => e.1 = email)).length = 1 := by
  rw [RequestMagicCode_state st now seed email templateName uid hw hu]
  refine ⟨RandomString_length 6 seed, ?_, ?_, ?_⟩
  · simp [Cache.get, Cache.set, httl]
  · simp [Cache.set, httl]
  · simp [Cache.set, List.filter_cons, filter_key_after_erase]

/-- authStateExample is a working mail setup, one known user, and a cache
already holding an older live code for that user's address. -/
def authStateExample : AuthState :=
  { mailServer := { working := true, fromName := "EcoSystem", sendFails := false },
    users := [("a@x.com", "u1")],
    cache := { ttl := 300, entries := [("a@x.com", "oldcode", 200)] },
    sent := [] }

/-- Witness for C8 at a concrete state with a prior live code: the new
6-character code is stored with expiry 400, readable at once, and is the
single remaining entry for the address. -/
theorem requestMagicCode_stores_code_witness :
    (RandomString 6 0).length = 6 ∧
    ((RequestMagicCode authStateExample 100 0 "a@x.com" "magic").2).cache.get 100
      "a@x.com" = some (RandomString 6 0) ∧
    ("a@x.com", RandomString 6 0, 100 + 300) ∈
      ((RequestMagicCode authStateExample 100 0 "a@x.com" "magic").2).cache.entries ∧
    (((RequestMagicCode authStateExample 100 0 "a@x.com" "magic").2).cache.entries.filter
      (fun e => e.1 = "a@x.com")).length = 1 :=
  requestMagicCode_stores_code authStateExample 100 0 "a@x.com" "magic" "u1"
    rfl rfl rfl

/-- C9: when the mail capability is not operational, requesting a magic
code returns the configuration error immediately and the state is returned
unchanged — no user lookup takes effect, nothing is cached, no send is
attempted. -/
theorem requestMagicCode_mail_not_configured (st : AuthState) (now seed : Nat)
    (email templateName : String)
    (h : st.mailServer.working = false) :
    RequestMagicCode st now seed email templateName =
      (Except.error AuthErr.mailNotConfigured, st) := by
  simp [RequestMagicCode, h]

/-- mailDownStateExample is authStateExample with its mail capability not
working. -/
def mailDownStateExample : AuthState :=
  { authStateExample with
    mailServer := { working := false, fromName := "EcoSystem", sendFails := false } }

/-- Witness for C9 at a concrete state with mail down. -/
theorem requestMagicCode_mail_not_configured_witness :
    RequestMagicCode mailDownStateExample 100 0 "a@x.com" "magic" =
      (Except.error AuthErr.mailNotConfigured, mailDownStateExample) :=
  requestMagicCode_mail_not_configured mailDownStateExample 100 0 "a@x.com" "magic"
    rfl

/-- C10: when the email dispatch fails, the operation returns the delivery
error, yet the freshly generated code has already been stored and is live
in the cache for that contact address — the cache write is not rolled
back. -/
theorem requestMagicCode_send_failure_keeps_code (st : AuthState) (now seed : Nat)
    (email templateName uid : String)
    (hw : st.mailServer.working = true)
    (hu : findUserByEmail st.users email = some uid)
    (hf : st.mailServer.sendFails = true)
    (httl : st.cache.ttl = 300) :
    (RequestMagicCode st now seed email templateName).1 =
      Except.error AuthErr.mailDeliveryFailed ∧
    ((RequestMagicCode st now seed email templateName).2).cache.get now email =
      some (RandomString 6 seed) := by
  constructor
  · simp [RequestMagicCode, hw, hu, hf]
  · rw [RequestMagicCode_state st now seed email templateName uid hw hu]
    simp [Cache.get, Cache.set, httl]

/-- mailFailStateExample is authStateExample whose send attempts fail. -/
def mailFailStateExample : AuthState :=
  { authStateExample with
    mailServer := { working := true, fromName := "EcoSystem", sendFails := true } }

/-- Witness for C10 at a concrete state whose send fails: the delivery
error is returned and the fresh code is live in the cache. -/
theorem requestMagicCode_send_failure_keeps_code_witness :
    (RequestMagicCode mailFailStateExample 100 0 "a@x.com" "magic").1 =
      Except.error AuthErr.mailDeliveryFailed ∧
    ((RequestMagicCode mailFailStateExample 100 0 "a@x.com" "magic").2).cache.get 100
      "a@x.com" = some (RandomString 6 0) :=
  requestMagicCode_send_failure_keeps_code mailFailStateExample 100 0 "a@x.com"
    "magic" "u1" rfl rfl rfl rfl

/-- C4: with a signing secret present and a working administrative
connection, the startup trace performs, in order: email setup, opening the
administrative connection, setting the server role's password to the
freshly generated 16-character rotation secret, closing the administrative
connection, and opening the long-lived server connection with that same
secret; every event after that prefix is a listener start (the API
listener among them), so no listener starts before the rotation completes.
When the password-setting statement fails, the process exits fatally: no
server connection is opened and no listener ever starts. -/
theorem serve_bootstrap_sequence (cfg : ServeConfig)
    (hs : cfg.secret ≠ "") (ha : cfg.adminPingOk = true) :
    (RandomString 16 cfg.seed).length = 16 ∧
    (cfg.setPwSucceeds = true → cfg.serverPingOk = true →
      ∃ l₂, serveTrace cfg =
        [Event.emailSetup cfg.emailOk, Event.openAdminConn,
         Event.setServerPassword (RandomString 16 cfg.seed), Event.closeAdminConn,
         Event.openServerConn (RandomString 16 cfg.seed)] ++ l₂ ∧
        (∀ e ∈ l₂, e.isListen = true) ∧ Event.listen cfg.apiPort ∈ l₂) ∧
    (cfg.setPwSucceeds = false →
      (∀ pw, Event.openServerConn pw ∉ serveTrace cfg) ∧
      (∀ p, Event.listen p ∉ serveTrace cfg) ∧
      Event.fatal "Error setting server role password" ∈ serveTrace cfg) := by
  refine ⟨RandomString_length 16 cfg.seed, ?_, ?_⟩
  · intro hp hsp
    refine ⟨(if cfg.noadminpanel = false then [Event.listen cfg.adminPanelPort] else []) ++
      (if cfg.nowebsite = false then [Event.listen cfg.websitePort] else []) ++
      [Event.listen cfg.apiPort], ?_, ?_, ?_⟩
    · simp [serveTrace, preServeTrace, preServeFatal, hs, ha, hp, hsp]
    · intro e he
      rcases List.mem_append.mp he with h1 | h2
      · rcases List.mem_append.mp h1 with h3 | h4
        · split at h3 <;> simp at h3
          subst h3; rfl
        · split at h4 <;> simp at h4
          subst h4; rfl
      · simp at h2
        subst h2; rfl
    · simp
  · intro hp
    have htr : serveTrace cfg =
        [Event.emailSetup cfg.emailOk, Event.openAdminConn,
         Event.setServerPassword (RandomString 16 cfg.seed),
         Event.fatal "Error setting server role password"] := by
      simp [serveTrace, preServeTrace, preServeFatal, hs, ha, hp]
    rw [htr]
    refine ⟨?_, ?_, ?_⟩
    · intro pw
      simp
    · intro p
      simp
    · simp

/-- serveConfigExample is a complete, healthy startup configuration. -/
def serveConfigExample : ServeConfig :=
  { secret := "topsecretsigning", emailOk := true, adminPingOk := true,
    setPwSucceeds := true, serverPingOk := true, seed := 7,
    noadminpanel := false, nowebsite := false,
    adminPanelPort := "3001", websitePort := "3000", apiPort := "3002" }

/-- Witness for C4 at the healthy configuration: the trace is the rotation
prefix followed only by listener starts. -/
theorem serve_bootstrap_sequence_witness :
    ∃ l₂, serveTrace serveConfigExample =
      [Event.emailSetup serveConfigExample.emailOk, Event.openAdminConn,
       Event.setServerPassword (RandomString 16 serveConfigExample.seed),
       Event.closeAdminConn,
       Event.openServerConn (RandomString 16 serveConfigExample.seed)] ++ l₂ ∧
      (∀ e ∈ l₂, e.isListen = true) ∧
      Event.listen serveConfigExample.apiPort ∈ l₂ :=
  (serve_bootstrap_sequence serveConfigExample (by decide) rfl).2.1 rfl rfl

/-- C5: with an empty signing secret the startup trace is exactly the
fatal exit on the missing secret: no listener starts, no credential
rotation is attempted, no server connection is opened. -/
theorem serve_missing_secret_fatal (cfg : ServeConfig) (h : cfg.secret = "") :
    serveTrace cfg = [Event.fatal "No signing secret provided"] ∧
    (∀ p, Event.listen p ∉ serveTrace cfg) ∧
    (∀ pw, Event.setServerPassword pw ∉ serveTrace cfg) ∧
    (∀ pw, Event.openServerConn pw ∉ serveTrace cfg) := by
  have htr : serveTrace cfg = [Event.fatal "No signing secret provided"] := by
    simp [serveTrace, preServeTrace, preServeFatal, h]
  refine ⟨htr, ?_, ?_, ?_⟩ <;> intro x <;> rw [htr] <;> simp

/-- noSecretConfigExample is serveConfigExample with the secret absent. -/
def noSecretConfigExample : ServeConfig :=
  { serveConfigExample with secret := "" }

/-- Witness for C5 at the concrete secretless configuration. -/
theorem serve_missing_secret_fatal_witness :
    serveTrace noSecretConfigExample = [Event.fatal "No signing secret provided"] ∧
    (∀ p, Event.listen p ∉ serveTrace noSecretConfigExample) ∧
    (∀ pw, Event.setServerPassword pw ∉ serveTrace noSecretConfigExample) ∧
    (∀ pw, Event.openServerConn pw ∉ serveTrace noSecretConfigExample) :=
  serve_missing_secret_fatal noSecretConfigExample rfl

end Ecosystem
